import Mathlib

/-!
Verification of the metrics-dashboard core of `team-c-monitor/frontend/app.py`.

The script keeps a rolling history of fetched metrics in
`st.session_state.history` (a pandas DataFrame truncated with `tail(20)`),
classifies anomaly strings by a case-insensitive substring test against
"CRITICAL", fetches `/metrics` inside a try/except whose except branch
leaves all session state untouched, reads payload fields with `.get`
defaults, and exposes a burst-log generator issuing 30 best-effort POSTs.

Numbers are modelled as rationals (Python floats/ints carry exact values in
every scenario of interest here), strings as Lean strings, and the random
draws of the burst generator as explicit inputs.
-/

namespace Monitor

/-- One row of the history DataFrame: the dict built at lines 74-78 of
`app.py` (`Time`, `Throughput`, `ErrorRate`). -/
structure HistoryRecord where
  time : String
  throughput : ℚ
  errorRatePercent : ℚ
deriving DecidableEq, Repr

/-- The capacity used by `st.session_state.history.tail(20)` (line 80). -/
def historyCapacity : ℕ := 20

/-- Pandas `DataFrame.tail(n)`: keep only the last `n` rows. -/
def tailN {α : Type} (n : ℕ) (l : List α) : List α :=
  l.drop (l.length - n)

/-- Lines 79-80 of `app.py`: concatenate the new row at the end, then keep
the last 20 rows. -/
def appendHistory (h : List HistoryRecord) (r : HistoryRecord) : List HistoryRecord :=
  tailN historyCapacity (h ++ [r])

theorem length_tailN {α : Type} (n : ℕ) (l : List α) :
    (tailN n l).length = min l.length n := by
  simp [tailN]
  omega

theorem tailN_append_left {α : Type} (n : ℕ) (l₁ l₂ : List α) :
    tailN n (tailN n l₁ ++ l₂) = tailN n (l₁ ++ l₂) := by
  have h1 : l₁.drop (l₁.length - n) ++ l₂ = (l₁ ++ l₂).drop (l₁.length - n) :=
    (List.drop_append_of_le_length (Nat.sub_le _ _)).symm
  simp only [tailN, h1, List.length_drop, List.drop_drop, List.length_append]
  congr 1
  omega

theorem foldl_appendHistory (rs : List HistoryRecord) :
    ∀ l : List HistoryRecord,
      rs.foldl appendHistory (tailN historyCapacity l) = tailN historyCapacity (l ++ rs) := by
  induction rs with
  | nil => intro l; simp
  | cons r rs ih =>
    intro l
    have hstep : appendHistory (tailN historyCapacity l) r = tailN historyCapacity (l ++ [r]) :=
      tailN_append_left historyCapacity l [r]
    calc (r :: rs).foldl appendHistory (tailN historyCapacity l)
        = rs.foldl appendHistory (tailN historyCapacity (l ++ [r])) := by
          simp [List.foldl_cons, hstep]
      _ = tailN historyCapacity ((l ++ [r]) ++ rs) := ih (l ++ [r])
      _ = tailN historyCapacity (l ++ r :: rs) := by simp

theorem tailN_nil {α : Type} (n : ℕ) : tailN n ([] : List α) = [] := by
  simp [tailN]

theorem foldl_appendHistory_nil (rs : List HistoryRecord) :
    rs.foldl appendHistory [] = tailN historyCapacity rs := by
  have h := foldl_appendHistory rs []
  simpa [tailN_nil] using h

theorem appendHistory_full (h : List HistoryRecord) (r : HistoryRecord)
    (hlen : h.length = 20) : appendHistory h r = h.tail ++ [r] := by
  have hd : (h ++ [r]).drop 1 = h.drop 1 ++ [r] := by
    apply List.drop_append_of_le_length
    omega
  simp only [appendHistory, tailN, historyCapacity, List.length_append, hlen,
    List.length_singleton]
  norm_num [hd]

/-- C1: starting from the empty history, after any sequence of N successful
fetch cycles the buffer has length `min N 20` and equals the last
`min N 20` derived records in fetch order (so it is a contiguous suffix of
the input and nothing is ever reordered); appending a 21st record to a full
20-record buffer drops exactly the head and keeps the other 19 records plus
the new one, in order. -/
theorem history_bounded_fifo :
    (∀ rs : List HistoryRecord,
        (rs.foldl appendHistory []).length = min rs.length 20 ∧
        rs.foldl appendHistory [] = tailN 20 rs) ∧
    (∀ (h : List HistoryRecord) (r : HistoryRecord),
        h.length = 20 → appendHistory h r = h.tail ++ [r]) := by
  constructor
  · intro rs
    refine ⟨?_, foldl_appendHistory_nil rs⟩
    rw [foldl_appendHistory_nil rs]
    exact length_tailN 20 rs
  · intro h r hlen
    exact appendHistory_full h r hlen

/-- Concrete sample records used by witnesses. -/
def recA : HistoryRecord := ⟨"10:00:00", 1, 2⟩

def recB : HistoryRecord := ⟨"10:00:05", 3, 4⟩

/-- Witness for C1 at a concrete full buffer of 20 records. -/
theorem history_bounded_fifo_witness :
    appendHistory (List.replicate 20 recA) recB = (List.replicate 20 recA).tail ++ [recB] :=
  history_bounded_fifo.2 (List.replicate 20 recA) recB (by simp)

/-! ### Anomaly classification (lines 142-148 of `app.py`) -/

/-- Python `alert.upper()` restricted to its ASCII action, as a character
list; the token searched for is plain ASCII so this is the relevant part. -/
def upperStr (s : String) : List Char := s.data.map Char.toUpper

/-- The characters of the token tested at line 145. -/
def criticalToken : List Char := "CRITICAL".data

/-- Line 145 of `app.py`: the Python test `"CRITICAL" in alert.upper()`. -/
def containsCritical (alert : String) : Bool :=
  decide (criticalToken <:+: upperStr alert)

/-- Severity labels: `st.error` (red) for critical alerts, `st.warning`
(yellow) otherwise. -/
inductive Severity where
  | Critical
  | Warning
deriving DecidableEq, Repr

/-- Lines 145-148 of `app.py`: one alert string is rendered red when the
substring test succeeds and yellow otherwise. -/
def classifyAlert (alert : String) : Severity :=
  if containsCritical alert then Severity.Critical else Severity.Warning

/-- The loop at lines 144-148: each anomaly string in order, paired with its
severity. -/
def classify (anomalies : List String) : List (String × Severity) :=
  anomalies.map (fun a => (a, classifyAlert a))

/-- The wording of the spec: the needle occurs in the haystack as a
contiguous substring when characters are compared case-insensitively. -/
def caseInsensitiveContains (needle hay : String) : Prop :=
  ∃ m : List Char, m <:+: hay.data ∧
    List.Forall₂ (fun a b => Char.toUpper a = Char.toUpper b) m needle.data

theorem forall₂_upper_iff (m X : List Char) :
    List.Forall₂ (fun a b => Char.toUpper a = Char.toUpper b) m X ↔
      m.map Char.toUpper = X.map Char.toUpper := by
  induction m generalizing X with
  | nil => cases X <;> simp
  | cons a m ih =>
    cases X with
    | nil => simp
    | cons b X => simp [List.forall₂_cons, ih]

theorem infix_map_iff {α β : Type} (f : α → β) (X : List β) (l : List α) :
    X <:+: l.map f ↔ ∃ m, m <:+: l ∧ m.map f = X := by
  constructor
  · rintro ⟨u, v, huv⟩
    have h1 : l.map f = u ++ (X ++ v) := by rw [← huv, List.append_assoc]
    obtain ⟨l₁, l₂, hl, hu, h2⟩ := List.map_eq_append_iff.mp h1
    obtain ⟨m, r, hl2, hm, hr⟩ := List.map_eq_append_iff.mp h2
    exact ⟨m, ⟨l₁, r, by rw [hl, hl2, List.append_assoc]⟩, hm⟩
  · rintro ⟨m, ⟨u, v, huv⟩, hm⟩
    refine ⟨u.map f, v.map f, ?_⟩
    rw [← hm, ← List.map_append, ← List.map_append, huv]

theorem containsCritical_iff (s : String) :
    containsCritical s = true ↔ caseInsensitiveContains "CRITICAL" s := by
  have hfix : criticalToken.map Char.toUpper = criticalToken := rfl
  simp only [containsCritical, upperStr, decide_eq_true_iff]
  rw [infix_map_iff]
  constructor
  · rintro ⟨m, hinf, hm⟩
    refine ⟨m, hinf, ?_⟩
    rw [forall₂_upper_iff, hm]
    exact hfix.symm
  · rintro ⟨m, hinf, hf⟩
    refine ⟨m, hinf, ?_⟩
    rw [forall₂_upper_iff] at hf
    rw [hf]
    exact hfix

/-- C2: classification maps each anomaly string to Critical exactly when the
string contains "CRITICAL" under case-insensitive comparison and to Warning
otherwise; the output keeps the length and order of the input (its first
components are the input sequence itself), and the empty input yields the
empty output. -/
theorem classify_case_insensitive :
    (∀ anomalies : List String,
        (classify anomalies).map Prod.fst = anomalies ∧
        (classify anomalies).length = anomalies.length ∧
        ∀ p ∈ classify anomalies,
          (p.2 = Severity.Critical ↔ caseInsensitiveContains "CRITICAL" p.1)) ∧
    classify [] = [] := by
  refine ⟨?_, rfl⟩
  intro anomalies
  refine ⟨by simp [classify, Function.comp_def], by simp [classify], ?_⟩
  intro p hp
  simp only [classify, List.mem_map] at hp
  obtain ⟨a, _, rfl⟩ := hp
  simp only [classifyAlert]
  by_cases h : containsCritical a = true
  · rw [if_pos h]
    exact iff_of_true rfl ((containsCritical_iff a).mp h)
  · rw [if_neg h]
    exact iff_of_false (by simp) (fun hc => h ((containsCritical_iff a).mpr hc))

/-- Witness for C2 on a lower-case critical alert. -/
theorem classify_case_insensitive_witness :
    (("critical error", Severity.Critical).2 = Severity.Critical ↔
      caseInsensitiveContains "CRITICAL" "critical error") :=
  (classify_case_insensitive.1 ["critical error"]).2.2
    ("critical error", Severity.Critical) (by decide)

/-! ### Backend payload and fetch cycle (lines 69-84 of `app.py`) -/

/-- A parsed JSON body of `GET /metrics`.  Every field is optional; the
script reads each one with `data.get(key, default)`. -/
structure Payload where
  requests_per_min : Option ℚ := none
  error_rate : Option ℚ := none
  p50_latency : Option ℚ := none
  p95_latency : Option ℚ := none
  p99_latency : Option ℚ := none
  estimated_cost_usd : Option ℚ := none
  per_user_requests : Option (List (String × ℕ)) := none
  anomalies : Option (List String) := none
deriving DecidableEq, Repr

/-- The snapshot the page works from: every `data.get(...)` access the
script performs, with its default. -/
structure MetricsSnapshot where
  requestsPerMinute : ℚ
  errorRate : ℚ
  p50Latency : ℚ
  p95Latency : ℚ
  p99Latency : ℚ
  estimatedCostUsd : ℚ
  perUserRequests : List (String × ℕ)
  anomalies : List String
deriving DecidableEq, Repr

/-- The `.get` defaults used at lines 76-77, 93-100, 124, 130 and 142:
numbers default to zero, `per_user_requests` to the empty mapping,
`anomalies` to the empty sequence. -/
def parsePayload (p : Payload) : MetricsSnapshot :=
  ⟨p.requests_per_min.getD 0, p.error_rate.getD 0, p.p50_latency.getD 0,
    p.p95_latency.getD 0, p.p99_latency.getD 0, p.estimated_cost_usd.getD 0,
    p.per_user_requests.getD [], p.anomalies.getD []⟩

/-- Lines 74-78 of `app.py`: the history row derived from a payload —
`Throughput` is `requests_per_min` (default 0) and `ErrorRate` is
`error_rate` (default 0.0) times 100. -/
def mkRecord (now : String) (p : Payload) : HistoryRecord :=
  ⟨now, p.requests_per_min.getD 0, p.error_rate.getD 0 * 100⟩

/-- Outcome of `requests.get` plus `response.json()`: either the request
raised (timeout, connection error), or a response arrived with some HTTP
status and a body that parses to a payload or does not parse. -/
inductive FetchOutcome where
  | raised : FetchOutcome
  | response : ℕ → Option Payload → FetchOutcome
deriving DecidableEq, Repr

/-- The per-session state: the rolling history DataFrame
(`st.session_state.history`) together with the snapshot most recently shown
(the `data` the page rendered last). -/
structure DashState where
  history : List HistoryRecord
  current : Option MetricsSnapshot
deriving DecidableEq, Repr

/-- Session start (line 38-39): empty history, nothing fetched yet. -/
def initialState : DashState := ⟨[], none⟩

/-- The try/except at lines 69-84: on a response whose body parses, append
the derived row and truncate to 20, and show the parsed snapshot (the flag
is `false`: no error notice); if the request raised or the body does not
parse, the except branch runs — session state is untouched and the
backend-unreachable notice is shown (`true`). -/
def runCycle (s : DashState) (now : String) (o : FetchOutcome) : DashState × Bool :=
  match o with
  | FetchOutcome.raised => (s, true)
  | FetchOutcome.response _ none => (s, true)
  | FetchOutcome.response _ (some p) =>
      (⟨appendHistory s.history (mkRecord now p), some (parsePayload p)⟩, false)

/-- A sequence of refresh cycles, each with its wall-clock label and fetch
outcome. -/
def runCycles (s : DashState) (steps : List (String × FetchOutcome)) : DashState :=
  steps.foldl (fun st step => (runCycle st step.1 step.2).1) s

/-- C3: a failed fetch cycle (transport error or unparseable body) leaves
the history buffer and the current snapshot exactly as they were — nothing
appended, nothing evicted, prior snapshot retained — and its only effect is
the backend-unreachable notice for that cycle. -/
theorem failed_cycle_preserves_state (s : DashState) (now : String) (o : FetchOutcome)
    (h : o = FetchOutcome.raised ∨ ∃ status, o = FetchOutcome.response status none) :
    runCycle s now o = (s, true) := by
  rcases h with rfl | ⟨status, rfl⟩ <;> rfl

/-- Witness for C3: a raised request on a concrete state. -/
theorem failed_cycle_preserves_state_witness :
    runCycle ⟨[Monitor.recA], none⟩ "10:00:05" FetchOutcome.raised =
      (⟨[Monitor.recA], none⟩, true) :=
  failed_cycle_preserves_state ⟨[Monitor.recA], none⟩ "10:00:05" FetchOutcome.raised
    (Or.inl rfl)

/-- C4: each absent payload field defaults to zero, the empty mapping or the
empty sequence; building the snapshot from any parsed payload never fails
(a successful parse always takes the success branch), and a cycle fails
only when the request raised or the body did not parse. -/
theorem parse_defaults (p : Payload) :
    (p.requests_per_min = none → (parsePayload p).requestsPerMinute = 0) ∧
    (p.error_rate = none → (parsePayload p).errorRate = 0) ∧
    (p.p50_latency = none → (parsePayload p).p50Latency = 0) ∧
    (p.p95_latency = none → (parsePayload p).p95Latency = 0) ∧
    (p.p99_latency = none → (parsePayload p).p99Latency = 0) ∧
    (p.estimated_cost_usd = none → (parsePayload p).estimatedCostUsd = 0) ∧
    (p.per_user_requests = none → (parsePayload p).perUserRequests = []) ∧
    (p.anomalies = none → (parsePayload p).anomalies = []) ∧
    (∀ s now status, (runCycle s now (FetchOutcome.response status (some p))).2 = false) ∧
    (∀ s now, (runCycle s now FetchOutcome.raised).2 = true ∧
      ∀ status, (runCycle s now (FetchOutcome.response status none)).2 = true) := by
  refine ⟨fun h => by simp [parsePayload, h], fun h => by simp [parsePayload, h],
    fun h => by simp [parsePayload, h], fun h => by simp [parsePayload, h],
    fun h => by simp [parsePayload, h], fun h => by simp [parsePayload, h],
    fun h => by simp [parsePayload, h], fun h => by simp [parsePayload, h],
    fun s now status => rfl, fun s now => ⟨rfl, fun status => rfl⟩⟩

/-- The payload of an empty JSON object. -/
def emptyPayload : Payload := ⟨none, none, none, none, none, none, none, none⟩

/-- Witness for C4 on the empty payload. -/
theorem parse_defaults_witness :
    (parsePayload emptyPayload).requestsPerMinute = 0 ∧
    (parsePayload emptyPayload).anomalies = [] :=
  ⟨(parse_defaults emptyPayload).1 rfl,
    (parse_defaults emptyPayload).2.2.2.2.2.2.2.1 rfl⟩

/-- A payload carrying only a throughput and an error rate, as in the
three-fetch scenario. -/
def scenarioPayload (rpm er : ℚ) : Payload :=
  ⟨some rpm, some er, none, none, none, none, none, none⟩

/-- C5: the derived history record is a deterministic function of the
snapshot, with throughput the payload's `requests_per_min` and
`ErrorRate` the payload's `error_rate` times 100; three successful fetches
with throughputs 10, 20, 15 and error rates 0.01, 0.05, 0.02 leave a
3-record buffer with throughputs 10, 20, 15 and error-rate percentages
1, 5, 2, in that order. -/
theorem derived_record_scenario :
    (∀ now (p : Payload),
        (mkRecord now p).time = now ∧
        (mkRecord now p).throughput = (parsePayload p).requestsPerMinute ∧
        (mkRecord now p).errorRatePercent = (parsePayload p).errorRate * 100) ∧
    (runCycles initialState
        [("t1", FetchOutcome.response 200 (some (scenarioPayload 10 (1/100)))),
         ("t2", FetchOutcome.response 200 (some (scenarioPayload 20 (5/100)))),
         ("t3", FetchOutcome.response 200 (some (scenarioPayload 15 (2/100))))]).history
      = [⟨"t1", 10, 1⟩, ⟨"t2", 20, 5⟩, ⟨"t3", 15, 2⟩] := by
  refine ⟨fun now p => ⟨rfl, rfl, rfl⟩, ?_⟩
  norm_num [runCycles, runCycle, appendHistory, tailN, historyCapacity, mkRecord,
    scenarioPayload, initialState]

/-- C10: any response whose body parses is treated as a successful fetch —
the record is appended and the snapshot replaced whatever the HTTP status
code — and the backend-unreachable branch is taken exactly when the request
raised or the body did not parse. -/
theorem status_code_ignored :
    (∀ s now (status : ℕ) (p : Payload),
        runCycle s now (FetchOutcome.response status (some p)) =
          (⟨appendHistory s.history (mkRecord now p), some (parsePayload p)⟩, false)) ∧
    (∀ s now o,
        (runCycle s now o).2 = true ↔
          (o = FetchOutcome.raised ∨ ∃ status, o = FetchOutcome.response status none)) := by
  refine ⟨fun s now status p => rfl, ?_⟩
  intro s now o
  cases o with
  | raised => simp [runCycle]
  | response status body => cases body <;> simp [runCycle]

/-! ### Incident log rendering (lines 140-150 of `app.py`) -/

/-- What the incident log shows: the all-nominal success banner, or the
list of alerts each with its severity. -/
inductive IncidentDisplay where
  | nominal : IncidentDisplay
  | alerts : List (String × Severity) → IncidentDisplay
deriving DecidableEq, Repr

/-- Lines 142-150: `if anomalies:` render each alert with its severity,
`else` render the all-nominal banner. -/
def renderIncidents (anomalies : List String) : IncidentDisplay :=
  if anomalies.isEmpty then IncidentDisplay.nominal
  else IncidentDisplay.alerts (classify anomalies)

/-- C6: the all-nominal state is rendered exactly when the snapshot's
anomaly sequence is empty (in particular when the field was absent); a
non-empty sequence renders the classified alerts and never the nominal
state. -/
theorem nominal_iff_empty (p : Payload) :
    (renderIncidents (parsePayload p).anomalies = IncidentDisplay.nominal ↔
      (parsePayload p).anomalies = []) ∧
    (p.anomalies = none →
      renderIncidents (parsePayload p).anomalies = IncidentDisplay.nominal) ∧
    ((parsePayload p).anomalies ≠ [] →
      renderIncidents (parsePayload p).anomalies =
        IncidentDisplay.alerts (classify (parsePayload p).anomalies)) := by
  refine ⟨?_, ?_, ?_⟩
  · cases h : (parsePayload p).anomalies <;> simp [renderIncidents]
  · intro h
    simp [parsePayload, renderIncidents, h]
  · intro h
    cases hh : (parsePayload p).anomalies with
    | nil => exact absurd hh h
    | cons a l => simp [renderIncidents]

/-- The payload of the two-anomaly scenario. -/
def anomalousPayload : Payload :=
  ⟨none, none, none, none, none, none, none,
    some ["CRITICAL: error rate 40%", "latency above baseline"]⟩

/-- Witness for C6: the two-anomaly snapshot renders the classified alerts,
not the nominal banner. -/
theorem nominal_iff_empty_witness :
    renderIncidents (parsePayload anomalousPayload).anomalies =
      IncidentDisplay.alerts (classify (parsePayload anomalousPayload).anomalies) :=
  (nominal_iff_empty anomalousPayload).2.2 (by decide)

/-! ### Burst-log generator (lines 53-66 of `app.py`) -/

/-- The fixed user pool of `random.choice` at line 57. -/
def burstUsers : List String := ["alice_001", "bob_002", "charlie_003"]

/-- Python `random.randint(a, b)` (both ends inclusive) applied to an
arbitrary draw `r`: the result is `a` plus the draw reduced modulo the size
of the range. -/
def randint (a b r : ℕ) : ℕ := a + r % (b - a + 1)

/-- The JSON body POSTed to `/ingest` (lines 55-61). -/
structure LogRecord where
  timestamp : String
  user_id : String
  latency_ms : ℕ
  tokens_used : ℕ
  is_error : Bool
deriving DecidableEq, Repr

/-- The random draws consumed by one loop iteration: an index draw for
`random.choice`, two `randint` draws, and the uniform `random.random()`
value in `[0, 1)` compared against 0.08. -/
structure RandomDraws where
  userDraw : ℕ
  latencyDraw : ℕ
  tokensDraw : ℕ
  errDraw : ℚ
deriving DecidableEq, Repr

/-- The error-flag sampling probability at line 60. -/
def errorProb : ℚ := 8 / 100

/-- One synthetic log record (lines 55-61). -/
def mkBurstLog (now : String) (d : RandomDraws) : LogRecord :=
  ⟨now, burstUsers.getD (d.userDraw % burstUsers.length) "",
    randint 100 1500 d.latencyDraw, randint 50 2000 d.tokensDraw,
    decide (d.errDraw < errorProb)⟩

/-- The `timeout=1` of the POST at line 63. -/
def ingestTimeout : ℕ := 1

/-- The loop bound at line 54. -/
def burstCount : ℕ := 30

/-- Lines 53-66: the button handler builds and attempts `burstCount` POSTs,
each wrapped in `try/except: pass`, then always shows the sent banner.  The
per-request outcomes `sendOk` are accepted and deliberately ignored. -/
def generateBurst (now : String) (draws : ℕ → RandomDraws) (sendOk : ℕ → Bool) :
    List (LogRecord × ℕ) × Bool :=
  ((List.range burstCount).map (fun i => (mkBurstLog now (draws i), ingestTimeout)), true)

theorem randint_bounds (a b r : ℕ) (h : a ≤ b) :
    a ≤ randint a b r ∧ randint a b r ≤ b := by
  unfold randint
  have hm : r % (b - a + 1) < b - a + 1 := Nat.mod_lt r (by omega)
  omega

theorem burstUsers_getD_mem (n : ℕ) :
    burstUsers.getD (n % burstUsers.length) "" ∈ burstUsers := by
  have hlen : burstUsers.length = 3 := rfl
  have h : n % 3 < 3 := Nat.mod_lt n (by norm_num)
  have h3 : n % 3 = 0 ∨ n % 3 = 1 ∨ n % 3 = 2 := by omega
  rw [hlen]
  rcases h3 with h3 | h3 | h3 <;> rw [h3] <;> decide

/-- C7: the burst action attempts exactly 30 POSTs, each carrying a record
whose user identifier comes from the fixed three-user pool, latency in
[100, 1500], token count in [50, 2000], and error flag set exactly when the
uniform draw is below 0.08, each bounded by the 1-time-unit timeout; the
result is independent of the per-request outcomes (failures are swallowed)
and the sent confirmation is shown regardless. -/
theorem burst_spec (now : String) (draws : ℕ → RandomDraws) (sendOk : ℕ → Bool) :
    (generateBurst now draws sendOk).1.length = 30 ∧
    (generateBurst now draws sendOk).2 = true ∧
    (∀ sendOk₂, generateBurst now draws sendOk = generateBurst now draws sendOk₂) ∧
    ∀ e ∈ (generateBurst now draws sendOk).1,
      (∃ i, i < 30 ∧ e = (mkBurstLog now (draws i), ingestTimeout) ∧
        (e.1.is_error = true ↔ (draws i).errDraw < errorProb)) ∧
      e.1.timestamp = now ∧
      e.1.user_id ∈ burstUsers ∧
      100 ≤ e.1.latency_ms ∧ e.1.latency_ms ≤ 1500 ∧
      50 ≤ e.1.tokens_used ∧ e.1.tokens_used ≤ 2000 ∧
      e.2 = 1 := by
  refine ⟨by simp [generateBurst, burstCount], rfl, fun sendOk₂ => rfl, ?_⟩
  intro e he
  simp only [generateBurst, List.mem_map, List.mem_range, burstCount] at he
  obtain ⟨i, hi, rfl⟩ := he
  refine ⟨⟨i, hi, rfl, by simp [mkBurstLog]⟩, rfl, burstUsers_getD_mem _, ?_, ?_, ?_, ?_, rfl⟩
  · exact (randint_bounds 100 1500 _ (by norm_num)).1
  · exact (randint_bounds 100 1500 _ (by norm_num)).2
  · exact (randint_bounds 50 2000 _ (by norm_num)).1
  · exact (randint_bounds 50 2000 _ (by norm_num)).2

/-- A degenerate draw stream for the witness. -/
def constDraws : ℕ → RandomDraws := fun _ => ⟨0, 0, 0, 0⟩

/-- Witness for C7 on the first record of a burst whose draws are all
zero. -/
theorem burst_spec_witness :
    100 ≤ (mkBurstLog "t0" (constDraws 0), ingestTimeout).1.latency_ms :=
  ((burst_spec "t0" constDraws (fun _ => true)).2.2.2
    (mkBurstLog "t0" (constDraws 0), ingestTimeout)
    (List.mem_map.mpr ⟨0, List.mem_range.mpr (by norm_num [burstCount]), rfl⟩)).2.2.2.1

/-! ### Full per-rerun pipeline with the sensitivity slider (line 50) -/

/-- One whole rerun of the script from the core's viewpoint: the slider
value `k_threshold` is in scope (line 50) but, exactly as in the script, no
later computation reads it; the fetch cycle updates the state and, on
success, the page output is the parsed snapshot with its incident
display. -/
def corePipeline (k : ℚ) (s : DashState) (now : String) (o : FetchOutcome) :
    DashState × Bool × Option (MetricsSnapshot × IncidentDisplay) :=
  match o with
  | FetchOutcome.raised => (s, true, none)
  | FetchOutcome.response _ none => (s, true, none)
  | FetchOutcome.response _ (some p) =>
      (⟨appendHistory s.history (mkRecord now p), some (parsePayload p)⟩, false,
        some (parsePayload p, renderIncidents (parsePayload p).anomalies))

/-- C9: for any two sensitivity values in [0.5, 3.0] and the same backend
responses, every core output — the updated state (history records and
snapshot), the error notice, and the rendered anomaly classifications — is
identical: the slider is retained as local UI state and influences no core
computation. -/
theorem sensitivity_noninterference (k₁ k₂ : ℚ)
    (h₁ : 1/2 ≤ k₁) (h₂ : k₁ ≤ 3) (h₃ : 1/2 ≤ k₂) (h₄ : k₂ ≤ 3) :
    ∀ (s : DashState) (now : String) (o : FetchOutcome),
      corePipeline k₁ s now o = corePipeline k₂ s now o :=
  fun s now o => rfl

/-- Witness for C9 at the extreme slider values on a concrete cycle. -/
theorem sensitivity_noninterference_witness :
    corePipeline (1/2) initialState "10:00:00"
        (FetchOutcome.response 200 (some Monitor.emptyPayload)) =
      corePipeline 3 initialState "10:00:00"
        (FetchOutcome.response 200 (some Monitor.emptyPayload)) :=
  sensitivity_noninterference (1/2) 3 (by norm_num) (by norm_num) (by norm_num)
    (by norm_num) initialState "10:00:00"
    (FetchOutcome.response 200 (some Monitor.emptyPayload))

end Monitor
